import Mathlib

/-!
Shallow embedding of the single-file Flask CMS `app.py` (Shramic Networks CMS).

The database is modelled as lists of rows, one list per table, in insertion
order (SQLite returns unordered queries in rowid order, and every `first()`
call in the source is over that order).  Each HTTP handler becomes a function
from the database state (plus its request inputs: form fields, URL arguments,
the session, and the current time `now` standing for `datetime.utcnow()`)
to a pair of a response body and the new database state.  Template rendering
is presentation only and is modelled as a `Body.render` tagged with the
template path; flashed messages do not affect any claim and are not tracked.

Timestamps are `Nat` (an abstract clock).  Columns declared
`onupdate=datetime.utcnow` are refreshed to `now` whenever the row is part of
an UPDATE, exactly as SQLAlchemy does.  Nullable columns are `Option`-typed;
`NOT NULL` and `unique` column constraints are enforced by the `commit`
step of each mutating handler, mirroring the IntegrityError that
`db.session.commit()` raises, which the handlers catch with
`except Exception` followed by `db.session.rollback()`.
-/

/-- One element of the JSON array `api_blog_search` returns: exactly the five
fields of the dict comprehension in the source. -/
structure SearchResult where
  id : Nat
  title : String
  slug : String
  excerpt : Option String
  url : String
deriving DecidableEq, Repr

/-- A flashed-message-free response body: what a handler returns besides the
new database state.  `render` carries the template path, `redirect` the
Flask endpoint name passed to `url_for`, `json` the serialized search
results, `notFound` is `abort(404)` / a 404 error page. -/
inductive Body where
  | render (template : String)
  | redirect (endpoint : String)
  | json (results : List SearchResult)
  | notFound
  | serverError
deriving DecidableEq, Repr

/-- Row of the `user` table (model `User`). -/
structure User where
  id : Nat
  username : String
  passwordHash : String
  email : String
  createdAt : Nat
deriving DecidableEq, Repr

/-- Row of the `page_section` table (model `PageSection`).  `page` and
`sectionName` are `NOT NULL` but are assigned from form data in
`admin_edit_about`, so `sectionName` is Option-typed at the draft stage;
committed rows always carry `some`. -/
structure PageSection where
  id : Nat
  page : String
  sectionName : String
  title : Option String
  content : Option String
  imageUrl : Option String
  videoUrl : Option String
  buttonText : Option String
  buttonLink : Option String
  orderIndex : Nat
  isActive : Bool
  updatedAt : Nat
deriving DecidableEq, Repr

/-- Row of the `blog_category` table (model `BlogCategory`). -/
structure BlogCategory where
  id : Nat
  name : String
  slug : String
  description : Option String
deriving DecidableEq, Repr

/-- Row of the `blog_post` table (model `BlogPost`).  `categoryId` is kept as
the raw form string: SQLite's flexible typing stores whatever
`request.form.get('category_id')` supplied and no foreign-key enforcement is
active. -/
structure BlogPost where
  id : Nat
  title : String
  slug : String
  excerpt : Option String
  content : String
  featuredImage : Option String
  author : String
  categoryId : Option String
  tags : Option String
  metaDescription : Option String
  readTime : Nat
  isPublished : Bool
  isFeatured : Bool
  views : Nat
  publishedAt : Option Nat
  createdAt : Nat
  updatedAt : Nat
deriving DecidableEq, Repr

/-- Row of the `testimonial` table (model `Testimonial`). -/
structure Testimonial where
  id : Nat
  name : String
  location : Option String
  role : Option String
  avatarUrl : Option String
  testimonial : String
  rating : Nat
  yieldIncrease : Option String
  waterSaved : Option String
  incomeIncrease : Option String
  videoUrl : Option String
  isFeatured : Bool
  isActive : Bool
  orderIndex : Nat
  createdAt : Nat
deriving DecidableEq, Repr

/-- Row of the `team_member` table (model `TeamMember`). -/
structure TeamMember where
  id : Nat
  name : String
  position : String
  bio : Option String
  photoUrl : Option String
  email : Option String
  linkedin : Option String
  twitter : Option String
  orderIndex : Nat
  isLeadership : Bool
  isActive : Bool
  createdAt : Nat
deriving DecidableEq, Repr

/-- Row of the `statistic` table (model `Statistic`). -/
structure Statistic where
  id : Nat
  label : String
  value : String
  suffix : Option String
  icon : Option String
  orderIndex : Nat
  isActive : Bool
deriving DecidableEq, Repr

/-- Row of the `settings` table (model `Settings`). `value` is a nullable
Text column: `update_setting` may store the `None` a missing form field
produced. -/
structure SettingsRow where
  id : Nat
  key : String
  value : Option String
  description : String
  updatedAt : Nat
deriving DecidableEq, Repr

/-- Row of the `feature` table (model `Feature`). -/
structure Feature where
  id : Nat
  title : String
  description : Option String
  icon : Option String
  imageUrl : Option String
  orderIndex : Nat
  isActive : Bool
deriving DecidableEq, Repr

/-- The whole relational store: nine tables, each a list of rows in rowid
(insertion) order. -/
structure DBState where
  users : List User
  pageSections : List PageSection
  blogCategories : List BlogCategory
  blogPosts : List BlogPost
  testimonials : List Testimonial
  teamMembers : List TeamMember
  statistics : List Statistic
  settings : List SettingsRow
  features : List Feature
deriving DecidableEq, Repr

/-- The empty database, as `db.create_all()` leaves it. -/
def emptyDB : DBState :=
  ⟨[], [], [], [], [], [], [], [], []⟩

/-- The Flask session cookie: the two keys `admin_login` may set.  A key
absent from the dict is `none`. -/
structure Session where
  userId : Option Nat
  username : Option String
deriving DecidableEq, Repr

/-- HTTP method of a request, for routes accepting `GET` and `POST`. -/
inductive Method where
  | get
  | post
deriving DecidableEq, Repr

/-- Next autoincrement primary key: SQLite assigns max(rowid)+1. -/
def nextId (ids : List Nat) : Nat :=
  ids.foldr max 0 + 1

/-- Replace the first element satisfying `pred` by its image under `f`,
leaving everything else in place (an UPDATE of the row `first()` returned). -/
def updateFirst (pred : α → Bool) (f : α → α) : List α → List α
  | [] => []
  | x :: xs => if pred x then f x :: xs else x :: updateFirst pred f xs

/-! ## Authentication decorator and helper functions -/

/-- `login_required(f)`: the decorator around every admin handler.  If the
session dict has no `user_id` key it flashes a warning and redirects to the
`admin_login` endpoint without calling the wrapped handler; otherwise it
calls the handler. -/
def login_required (f : Session → DBState → Body × DBState)
    (s : Session) (st : DBState) : Body × DBState :=
  match s.userId with
  | none => (Body.redirect "admin_login", st)
  | some _ => f s st

/-- `get_setting(key, default='')`: value of the first settings row with
this key, or the default when no row matches.  The stored value is a
nullable column, hence `Option String` on both sides. -/
def get_setting (st : DBState) (key : String) (default : Option String) :
    Option String :=
  match st.settings.find? (fun r => r.key == key) with
  | some r => r.value
  | none => default

/-- `update_setting(key, value, description='')`: update the first row with
this key (refreshing its `updated_at`), or insert a fresh row when none
exists.  `now` stands for `datetime.utcnow()`. -/
def update_setting (st : DBState) (key : String) (value : Option String)
    (description : String) (now : Nat) : DBState :=
  match st.settings.find? (fun r => r.key == key) with
  | some _ =>
    let rows := updateFirst (fun r => r.key == key)
      (fun r => { r with value := value, updatedAt := now }) st.settings
    { st with settings := rows }
  | none =>
    let row : SettingsRow :=
      ⟨nextId (st.settings.map (fun r => r.id)), key, value, description, now⟩
    { st with settings := st.settings ++ [row] }

/-! ## create_slug: lower, strip, drop non-word chars, collapse runs -/

/-- Python's `\s` character class over the ASCII range (space, tab,
newline, carriage return, vertical tab, form feed). -/
def pyIsSpace (c : Char) : Bool :=
  c = ' ' || c = '\t' || c = '\n' || c = '\r' || c = '\x0b' || c = '\x0c'

/-- Python's `\w` character class: alphanumerics and underscore. -/
def pyIsWord (c : Char) : Bool :=
  c.isAlphanum || c = '_'

/-- Python's `str.strip()`: drop leading and trailing whitespace. -/
def pyStrip (l : List Char) : List Char :=
  ((l.dropWhile pyIsSpace).reverse.dropWhile pyIsSpace).reverse

/-- `re.sub(r'[-\s]+', '-', text)`: replace every maximal run of hyphens
and whitespace by a single hyphen.  The flag records whether we are inside
such a run (whose replacement hyphen has already been emitted). -/
def collapseRuns : Bool → List Char → List Char
  | _, [] => []
  | inRun, c :: rest =>
    if c = '-' || pyIsSpace c then
      if inRun then collapseRuns true rest
      else '-' :: collapseRuns true rest
    else c :: collapseRuns false rest

/-- `create_slug(text)`: `text.lower().strip()`, then
`re.sub(r'[^\w\s-]', '', text)`, then `re.sub(r'[-\s]+', '-', text)`. -/
def create_slug (text : String) : String :=
  String.mk (collapseRuns false
    ((pyStrip (text.data.map Char.toLower)).filter
      (fun c => pyIsWord c || pyIsSpace c || c = '-')))

/-! ## Substring matching (SQL LIKE through SQLAlchemy .contains) -/

/-- Substring test on character lists: `column.contains(needle)` compiles
to `LIKE '%needle%'`. -/
def containsSub (needle : List Char) : List Char → Bool
  | [] => needle.isEmpty
  | c :: t => needle.isPrefixOf (c :: t) || containsSub needle t

/-- Substring test on strings. -/
def strContains (hay needle : String) : Bool :=
  containsSub needle.data hay.data

/-- Substring test on a nullable column: SQL `NULL LIKE pattern` is not
true, so a NULL column never matches. -/
def optContains (hay : Option String) (needle : String) : Bool :=
  match hay with
  | none => false
  | some h => strContains h needle

/-! ## init_default_data: seed fixtures -/

/-- Abstraction of werkzeug's `generate_password_hash`: an external library
function whose exact digest never matters to the application logic, only
that a hash string is stored.  Modelled as a deterministic tagging. -/
def generate_password_hash (password : String) : String :=
  "pbkdf2-sha256$" ++ password

/-- The seeded admin user (`username='admin'`, `password='admin123'`). -/
def defaultAdmin (now : Nat) : User :=
  ⟨1, "admin", generate_password_hash "admin123", "admin@shramic.com", now⟩

/-- The ten seeded settings rows. -/
def defaultSettingsRows (now : Nat) : List SettingsRow :=
  [⟨1, "site_title", some "Shramic Networks", "Website title", now⟩,
   ⟨2, "site_tagline", some "Empowering Agriculture Through Innovation", "Website tagline", now⟩,
   ⟨3, "contact_email", some "shramicnetworks@gmail.com", "Contact email", now⟩,
   ⟨4, "contact_phone", some "+91 98765 43210", "Contact phone", now⟩,
   ⟨5, "contact_address", some "Bengaluru, Karnataka, India", "Contact address", now⟩,
   ⟨6, "facebook_url", some "#", "Facebook URL", now⟩,
   ⟨7, "twitter_url", some "#", "Twitter URL", now⟩,
   ⟨8, "linkedin_url", some "#", "LinkedIn URL", now⟩,
   ⟨9, "instagram_url", some "https://www.instagram.com/shramic.info", "Instagram URL", now⟩,
   ⟨10, "github_url", some "https://github.com/Amit-Ashok-Swain", "GitHub URL", now⟩]

/-- The four seeded blog categories. -/
def defaultCategories : List BlogCategory :=
  [⟨1, "Technology", "technology", some "Agricultural technology and innovation"⟩,
   ⟨2, "Sustainability", "sustainability", some "Sustainable farming practices"⟩,
   ⟨3, "Training", "training", some "Farmer training and education"⟩,
   ⟨4, "Market", "market", some "Market insights and trends"⟩]

/-- The four seeded statistics. -/
def defaultStatistics : List Statistic :=
  [⟨1, "Farmers Empowered", "50K", some "+", some "fas fa-users", 1, true⟩,
   ⟨2, "Average Yield Increase", "40", some "%", some "fas fa-chart-line", 2, true⟩,
   ⟨3, "Additional Income Generated", "₹2.5", some "Cr", some "fas fa-rupee-sign", 3, true⟩,
   ⟨4, "Satisfaction Rate", "95", some "%", some "fas fa-smile", 4, true⟩]

/-- `init_default_data()`: for each of the four tables below, insert the
fixture rows exactly when the table currently has no row
(`if not X.query.first()`); a single commit at the end.  No insertion can
violate a constraint (each guarded table is empty when its inserts run),
so the exception branch is unreachable and the function is total. -/
def init_default_data (st : DBState) (now : Nat) : DBState :=
  let st1 := if st.users.isEmpty
    then { st with users := [defaultAdmin now] } else st
  let st2 := if st1.settings.isEmpty
    then { st1 with settings := defaultSettingsRows now } else st1
  let st3 := if st2.blogCategories.isEmpty
    then { st2 with blogCategories := defaultCategories } else st2
  if st3.statistics.isEmpty
    then { st3 with statistics := defaultStatistics } else st3

/-! ## Public routes

The five read-only public pages run `filter_by`/`order_by` queries and feed
the results to a template; they issue no INSERT/UPDATE/DELETE and no commit,
so they return the state unchanged with a `render` body.  Only `blog_detail`
mutates (the view counter). -/

/-- `GET /` (`index`): queries hero section, about cards, features and
statistics, renders the home template. -/
def index (st : DBState) : Body × DBState :=
  (Body.render "public/index.html", st)

/-- `GET /about` (`about`): queries story/mission/vision/values sections and
team members, renders the about template. -/
def about (st : DBState) : Body × DBState :=
  (Body.render "public/about.html", st)

/-- `GET /blog` (`blog`): paginated published posts, optionally narrowed to
a category slug; renders the blog listing. -/
def blog (st : DBState) (_pageArg : Nat) (_categorySlug : Option String) :
    Body × DBState :=
  (Body.render "public/blog.html", st)

/-- `GET /blog/<slug>` (`blog_detail`): `first_or_404` over published posts
with the given slug.  On a miss the NotFound propagates to the catch-all,
which calls `abort(404)`.  On a hit the handler runs `post.views += 1` and
commits: the UPDATE bumps `views` and, through the column's
`onupdate=datetime.utcnow`, refreshes `updated_at`. -/
def blog_detail (st : DBState) (slug : String) (now : Nat) : Body × DBState :=
  match st.blogPosts.find? (fun p => p.slug == slug && p.isPublished) with
  | none => (Body.notFound, st)
  | some _ =>
    let posts := updateFirst (fun p => p.slug == slug && p.isPublished)
      (fun p => { p with views := p.views + 1, updatedAt := now }) st.blogPosts
    (Body.render "public/blog_detail.html", { st with blogPosts := posts })

/-- `GET /testimonials` (`testimonials`): queries active testimonials and
statistics, renders the testimonials template. -/
def testimonials (st : DBState) : Body × DBState :=
  (Body.render "public/testimonial.html", st)

/-- `GET /contact` (`contact`): renders the contact template directly. -/
def contact (st : DBState) : Body × DBState :=
  (Body.render "public/contact.html", st)

/-- `GET /api/blog/search` (`api_blog_search`): read-only JSON endpoint.
`request.args.get('q', '')` yields the empty string when `q` is absent; a
falsy query short-circuits to an empty array.  Otherwise: published posts
whose title, content or tags contain the query, limited to 10, serialized
to the five-field dicts. -/
def api_blog_search (st : DBState) (q : Option String) : Body :=
  let query := q.getD ""
  if query == "" then Body.json []
  else
    let posts := (st.blogPosts.filter (fun p =>
      p.isPublished &&
        (strContains p.title query || strContains p.content query ||
          optContains p.tags query))).take 10
    Body.json (posts.map (fun p =>
      ⟨p.id, p.title, p.slug, p.excerpt, "/blog/" ++ p.slug⟩))

/-! ## Admin form inputs

Each form is the dict `request.form` restricted to the keys the handler
reads: `Option String` per key (a key may be absent).  Fields read through
werkzeug's `get(key, default, type=int)` are modelled post-coercion as
`Option Nat`: `none` when the key is absent or the coercion failed, in
which case the source receives the default. -/

/-- Form fields read by `admin_edit_home`. -/
structure HomeForm where
  hero_title : Option String
  hero_content : Option String
  hero_image : Option String
  hero_button_text : Option String
  hero_button_link : Option String
deriving DecidableEq, Repr

/-- Form fields read by `admin_edit_about` (`section` selects the page
section to edit). -/
structure AboutForm where
  sectionField : Option String
  title : Option String
  content : Option String
  image_url : Option String
deriving DecidableEq, Repr

/-- Form fields read by `admin_edit_blog`. -/
structure BlogForm where
  title : Option String
  slug : Option String
  excerpt : Option String
  content : Option String
  featured_image : Option String
  author : Option String
  category_id : Option String
  tags : Option String
  meta_description : Option String
  read_time : Option Nat
  is_published : Option String
  is_featured : Option String
deriving DecidableEq, Repr

/-- Form fields read by `admin_edit_testimonial`. -/
structure TestimonialForm where
  name : Option String
  location : Option String
  role : Option String
  avatar_url : Option String
  testimonial : Option String
  rating : Option Nat
  yield_increase : Option String
  water_saved : Option String
  income_increase : Option String
  video_url : Option String
  is_featured : Option String
  is_active : Option String
  order_index : Option Nat
deriving DecidableEq, Repr

/-- Form fields read by `admin_edit_team`. -/
structure TeamForm where
  name : Option String
  position : Option String
  bio : Option String
  photo_url : Option String
  email : Option String
  linkedin : Option String
  twitter : Option String
  is_leadership : Option String
  is_active : Option String
  order_index : Option Nat
deriving DecidableEq, Repr

/-- Form fields read by `admin_manage_stats`.  `stat_id` is modelled
post-truthiness-and-coercion: `none` when the field is absent or empty
(the handler then creates a fresh row). -/
structure StatForm where
  stat_id : Option Nat
  label : Option String
  value : Option String
  suffix : Option String
  icon : Option String
  order_index : Option Nat
  is_active : Option String
deriving DecidableEq, Repr

/-- Form fields read by `admin_settings`: the ten settings keys. -/
structure SettingsForm where
  site_title : Option String
  site_tagline : Option String
  contact_email : Option String
  contact_phone : Option String
  contact_address : Option String
  facebook_url : Option String
  twitter_url : Option String
  linkedin_url : Option String
  instagram_url : Option String
  github_url : Option String
deriving DecidableEq, Repr

/-- Python's `a or b` on two optional strings: an absent key (`None`) and
the empty string are both falsy. -/
def pyOrStr (a b : Option String) : Option String :=
  match a with
  | some s => if s == "" then b else some s
  | none => b

/-! ## Admin mutation handlers

Each POST body runs inside `try`: on any exception (an attribute access on
`None` in the body, or the IntegrityError `commit` raises on a NOT NULL /
unique violation) the handler rolls the session back — the state reverts to
the request's starting state — flashes an error and falls through to the
re-render; on success the single commit applies every staged write and the
handler redirects. -/

/-- `admin_edit_home` (`/admin/home`): update-or-create the home hero
section from the form.  All assigned columns are nullable and
`page`/`section_name` are literals, so the commit cannot fail. -/
def admin_edit_home (method : Method) (st : DBState) (form : HomeForm)
    (now : Nat) : Body × DBState :=
  match method with
  | .get => (Body.render "admin/edit_home.html", st)
  | .post =>
    match st.pageSections.find? (fun s => s.page == "home" && s.sectionName == "hero") with
    | some _ =>
      let rows := updateFirst (fun s => s.page == "home" && s.sectionName == "hero")
        (fun s => { s with
          title := form.hero_title, content := form.hero_content,
          imageUrl := form.hero_image, buttonText := form.hero_button_text,
          buttonLink := form.hero_button_link, updatedAt := now }) st.pageSections
      (Body.redirect "admin_edit_home", { st with pageSections := rows })
    | none =>
      let row : PageSection :=
        ⟨nextId (st.pageSections.map (fun s => s.id)), "home", "hero",
          form.hero_title, form.hero_content, form.hero_image, none,
          form.hero_button_text, form.hero_button_link, 0, true, now⟩
      (Body.redirect "admin_edit_home", { st with pageSections := st.pageSections ++ [row] })

/-- `admin_edit_about` (`/admin/about`): update-or-create the page section
named by the form's `section` field.  When that field is absent the new
row's `section_name` is NULL and the commit raises (NOT NULL), so the
handler rolls back and re-renders. -/
def admin_edit_about (method : Method) (st : DBState) (form : AboutForm)
    (now : Nat) : Body × DBState :=
  match method with
  | .get => (Body.render "admin/edit_about.html", st)
  | .post =>
    match form.sectionField with
    | none => (Body.render "admin/edit_about.html", st)
    | some sect =>
      match st.pageSections.find? (fun s => s.page == "about" && s.sectionName == sect) with
      | some _ =>
        let rows := updateFirst (fun s => s.page == "about" && s.sectionName == sect)
          (fun s => { s with
            title := form.title, content := form.content,
            imageUrl := form.image_url, updatedAt := now }) st.pageSections
        (Body.redirect "admin_edit_about", { st with pageSections := rows })
      | none =>
        let row : PageSection :=
          ⟨nextId (st.pageSections.map (fun s => s.id)), "about", sect,
            form.title, form.content, form.image_url, none, none, none, 0, true, now⟩
        (Body.redirect "admin_edit_about", { st with pageSections := st.pageSections ++ [row] })

/-- No blog post other than the one with id `selfId` already owns `slug`
(the `unique=True` check the commit performs on the slug column). -/
def slugFree (posts : List BlogPost) (selfId : Option Nat) (slug : String) : Bool :=
  posts.all (fun p => some p.id == selfId || p.slug != slug)

/-- `admin_edit_blog` (`/admin/blog/new`, `/admin/blog/edit/<id>`): create
or update a blog post.  Body exception: `create_slug(None)` when both the
`slug` and `title` fields are falsy.  Commit exceptions: NOT NULL on
`title`/`content`, unique violation on `slug`.  Each failure rolls back and
re-renders; success commits every assignment at once and redirects. -/
def admin_edit_blog (method : Method) (st : DBState) (idOpt : Option Nat)
    (form : BlogForm) (now : Nat) : Body × DBState :=
  match method with
  | .get => (Body.render "admin/edit_blog.html", st)
  | .post =>
    match pyOrStr form.slug form.title with
    | none => (Body.render "admin/edit_blog.html", st)
    | some slugSrc =>
      let slug := create_slug slugSrc
      match form.title, form.content with
      | some title, some content =>
        let isPub := form.is_published == some "on"
        let existing := idOpt.bind (fun i => st.blogPosts.find? (fun p => p.id == i))
        match existing with
        | some p =>
          if slugFree st.blogPosts (some p.id) slug then
            let rows := updateFirst (fun q => q.id == p.id)
              (fun q => { q with
                title := title, slug := slug,
                excerpt := form.excerpt, content := content,
                featuredImage := form.featured_image,
                author := form.author.getD "Admin",
                categoryId := form.category_id, tags := form.tags,
                metaDescription := form.meta_description,
                readTime := form.read_time.getD 5,
                isPublished := isPub,
                isFeatured := form.is_featured == some "on",
                publishedAt := if isPub && q.publishedAt.isNone
                  then some now else q.publishedAt,
                updatedAt := now }) st.blogPosts
            (Body.redirect "admin_manage_blog", { st with blogPosts := rows })
          else (Body.render "admin/edit_blog.html", st)
        | none =>
          if slugFree st.blogPosts none slug then
            let row : BlogPost :=
              { id := nextId (st.blogPosts.map (fun p => p.id)),
                title := title, slug := slug, excerpt := form.excerpt,
                content := content, featuredImage := form.featured_image,
                author := form.author.getD "Admin",
                categoryId := form.category_id, tags := form.tags,
                metaDescription := form.meta_description,
                readTime := form.read_time.getD 5,
                isPublished := isPub,
                isFeatured := form.is_featured == some "on",
                views := 0,
                publishedAt := if isPub then some now else none,
                createdAt := now, updatedAt := now }
            (Body.redirect "admin_manage_blog", { st with blogPosts := st.blogPosts ++ [row] })
          else (Body.render "admin/edit_blog.html", st)
      | _, _ => (Body.render "admin/edit_blog.html", st)

/-- `admin_delete_blog` (`POST /admin/blog/delete/<id>`): `get_or_404`
raises NotFound on a missing id, but NotFound is an `Exception`, so the
blanket `except` catches it, rolls back and flashes; either way the final
statement redirects to blog management. -/
def admin_delete_blog (st : DBState) (id : Nat) : Body × DBState :=
  match st.blogPosts.find? (fun p => p.id == id) with
  | none => (Body.redirect "admin_manage_blog", st)
  | some _ =>
    (Body.redirect "admin_manage_blog",
      { st with blogPosts := st.blogPosts.eraseP (fun p => p.id == id) })

/-- `admin_edit_testimonial` (`/admin/testimonials/new`, `.../edit/<id>`):
create or update a testimonial.  Commit fails (NOT NULL) when `name` or
`testimonial` is absent. -/
def admin_edit_testimonial (method : Method) (st : DBState) (idOpt : Option Nat)
    (form : TestimonialForm) (now : Nat) : Body × DBState :=
  match method with
  | .get => (Body.render "admin/edit_testimonial.html", st)
  | .post =>
    match form.name, form.testimonial with
    | some name, some text =>
      let existing := idOpt.bind (fun i => st.testimonials.find? (fun t => t.id == i))
      match existing with
      | some t =>
        let rows := updateFirst (fun u => u.id == t.id)
          (fun u => { u with
            name := name, location := form.location,
            role := form.role, avatarUrl := form.avatar_url,
            testimonial := text, rating := form.rating.getD 5,
            yieldIncrease := form.yield_increase,
            waterSaved := form.water_saved,
            incomeIncrease := form.income_increase,
            videoUrl := form.video_url,
            isFeatured := form.is_featured == some "on",
            isActive := form.is_active == some "on",
            orderIndex := form.order_index.getD 0 }) st.testimonials
        (Body.redirect "admin_manage_testimonials", { st with testimonials := rows })
      | none =>
        let row : Testimonial :=
          { id := nextId (st.testimonials.map (fun t => t.id)),
            name := name, location := form.location, role := form.role,
            avatarUrl := form.avatar_url, testimonial := text,
            rating := form.rating.getD 5,
            yieldIncrease := form.yield_increase,
            waterSaved := form.water_saved,
            incomeIncrease := form.income_increase,
            videoUrl := form.video_url,
            isFeatured := form.is_featured == some "on",
            isActive := form.is_active == some "on",
            orderIndex := form.order_index.getD 0, createdAt := now }
        (Body.redirect "admin_manage_testimonials", { st with testimonials := st.testimonials ++ [row] })
    | _, _ => (Body.render "admin/edit_testimonial.html", st)

/-- `admin_delete_testimonial` (`POST /admin/testimonials/delete/<id>`):
same shape as `admin_delete_blog` — the NotFound of `get_or_404` is caught
by the blanket except and the handler redirects regardless. -/
def admin_delete_testimonial (st : DBState) (id : Nat) : Body × DBState :=
  match st.testimonials.find? (fun t => t.id == id) with
  | none => (Body.redirect "admin_manage_testimonials", st)
  | some _ =>
    (Body.redirect "admin_manage_testimonials",
      { st with testimonials := st.testimonials.eraseP (fun t => t.id == id) })

/-- `admin_edit_team` (`/admin/team/new`, `.../edit/<id>`): create or update
a team member.  Commit fails (NOT NULL) when `name` or `position` is
absent. -/
def admin_edit_team (method : Method) (st : DBState) (idOpt : Option Nat)
    (form : TeamForm) (now : Nat) : Body × DBState :=
  match method with
  | .get => (Body.render "admin/edit_team.html", st)
  | .post =>
    match form.name, form.position with
    | some name, some position =>
      let existing := idOpt.bind (fun i => st.teamMembers.find? (fun m => m.id == i))
      match existing with
      | some m =>
        let rows := updateFirst (fun u => u.id == m.id)
          (fun u => { u with
            name := name, position := position,
            bio := form.bio, photoUrl := form.photo_url,
            email := form.email, linkedin := form.linkedin,
            twitter := form.twitter,
            isLeadership := form.is_leadership == some "on",
            isActive := form.is_active == some "on",
            orderIndex := form.order_index.getD 0 }) st.teamMembers
        (Body.redirect "admin_manage_team", { st with teamMembers := rows })
      | none =>
        let row : TeamMember :=
          { id := nextId (st.teamMembers.map (fun m => m.id)),
            name := name, position := position, bio := form.bio,
            photoUrl := form.photo_url, email := form.email,
            linkedin := form.linkedin, twitter := form.twitter,
            orderIndex := form.order_index.getD 0,
            isLeadership := form.is_leadership == some "on",
            isActive := form.is_active == some "on", createdAt := now }
        (Body.redirect "admin_manage_team", { st with teamMembers := st.teamMembers ++ [row] })
    | _, _ => (Body.render "admin/edit_team.html", st)

/-- `admin_delete_team` (`POST /admin/team/delete/<id>`): same shape as the
other delete handlers. -/
def admin_delete_team (st : DBState) (id : Nat) : Body × DBState :=
  match st.teamMembers.find? (fun m => m.id == id) with
  | none => (Body.redirect "admin_manage_team", st)
  | some _ =>
    (Body.redirect "admin_manage_team",
      { st with teamMembers := st.teamMembers.eraseP (fun m => m.id == id) })

/-- `admin_manage_stats` (`/admin/stats`): with a truthy `stat_id` the
handler fetches that row — `Statistic.query.get` returning `None` makes the
following attribute assignment raise, caught by the except — otherwise it
creates a fresh row.  Commit fails (NOT NULL) when `label` or `value` is
absent. -/
def admin_manage_stats (method : Method) (st : DBState) (form : StatForm) :
    Body × DBState :=
  match method with
  | .get => (Body.render "admin/manage_stats.html", st)
  | .post =>
    match form.stat_id with
    | some sid =>
      match st.statistics.find? (fun s => s.id == sid) with
      | none => (Body.render "admin/manage_stats.html", st)
      | some s =>
        match form.label, form.value with
        | some label, some value =>
          let rows := updateFirst (fun u => u.id == s.id)
            (fun u => { u with
              label := label, value := value,
              suffix := form.suffix, icon := form.icon,
              orderIndex := form.order_index.getD 0,
              isActive := form.is_active == some "on" }) st.statistics
          (Body.redirect "admin_manage_stats", { st with statistics := rows })
        | _, _ => (Body.render "admin/manage_stats.html", st)
    | none =>
      match form.label, form.value with
      | some label, some value =>
        let row : Statistic :=
          { id := nextId (st.statistics.map (fun s => s.id)),
            label := label, value := value, suffix := form.suffix,
            icon := form.icon, orderIndex := form.order_index.getD 0,
            isActive := form.is_active == some "on" }
        (Body.redirect "admin_manage_stats", { st with statistics := st.statistics ++ [row] })
      | _, _ => (Body.render "admin/manage_stats.html", st)

/-- `admin_delete_stat` (`POST /admin/stats/delete/<id>`): same shape as
the other delete handlers. -/
def admin_delete_stat (st : DBState) (id : Nat) : Body × DBState :=
  match st.statistics.find? (fun s => s.id == id) with
  | none => (Body.redirect "admin_manage_stats", st)
  | some _ =>
    (Body.redirect "admin_manage_stats",
      { st with statistics := st.statistics.eraseP (fun s => s.id == id) })

/-- `admin_settings` (`/admin/settings`): calls `update_setting` for each of
the ten keys in dict order (each call commits on its own) and redirects.
No constraint can fail (`value` is nullable, the keys are literals). -/
def admin_settings (method : Method) (st : DBState) (form : SettingsForm)
    (now : Nat) : Body × DBState :=
  match method with
  | .get => (Body.render "admin/settings.html", st)
  | .post =>
    let st1 := update_setting st "site_title" form.site_title "" now
    let st2 := update_setting st1 "site_tagline" form.site_tagline "" now
    let st3 := update_setting st2 "contact_email" form.contact_email "" now
    let st4 := update_setting st3 "contact_phone" form.contact_phone "" now
    let st5 := update_setting st4 "contact_address" form.contact_address "" now
    let st6 := update_setting st5 "facebook_url" form.facebook_url "" now
    let st7 := update_setting st6 "twitter_url" form.twitter_url "" now
    let st8 := update_setting st7 "linkedin_url" form.linkedin_url "" now
    let st9 := update_setting st8 "instagram_url" form.instagram_url "" now
    let st10 := update_setting st9 "github_url" form.github_url "" now
    (Body.redirect "admin_settings", st10)

/-! ## Response classifiers and concrete fixtures used by the statements -/

/-- Does the body redirect (the handler committed, or is a delete route)? -/
def isRedirect : Body → Bool
  | Body.redirect _ => true
  | _ => false

/-- Does the body render a template (GET branch or a rolled-back POST)? -/
def isRender : Body → Bool
  | Body.render _ => true
  | _ => false

/-- Atomicity of one admin mutation request starting from `st`: either the
handler committed its writes and redirected, or it failed, the rollback
restored `st`, and the handler re-rendered its form. -/
def atomicOutcome (st : DBState) (out : Body × DBState) : Prop :=
  isRedirect out.1 = true ∨ (out.2 = st ∧ isRender out.1 = true)

/-- A concrete stand-in for a wrapped admin handler (used to instantiate the
decorator theorem). -/
def dashHandler : Session → DBState → Body × DBState :=
  fun _ st => (Body.render "admin/dashboard.html", st)

/-- A concrete published blog post. -/
def samplePost : BlogPost :=
  { id := 1, title := "Drip irrigation basics", slug := "drip-irrigation-basics",
    excerpt := some "Save water", content := "Drip irrigation saves water",
    featuredImage := none, author := "Admin", categoryId := some "1",
    tags := some "water,irrigation", metaDescription := none, readTime := 5,
    isPublished := true, isFeatured := false, views := 0, publishedAt := some 0,
    createdAt := 0, updatedAt := 0 }

/-- A database holding the one published post above. -/
def sampleDB : DBState := { emptyDB with blogPosts := [samplePost] }

/-- A request whose form carries none of the keys. -/
def blankHomeForm : HomeForm :=
  { hero_title := none, hero_content := none, hero_image := none,
    hero_button_text := none, hero_button_link := none }

/-- A request whose form carries none of the keys. -/
def blankAboutForm : AboutForm :=
  { sectionField := none, title := none, content := none, image_url := none }

/-- A request whose form carries none of the keys. -/
def blankBlogForm : BlogForm :=
  { title := none, slug := none, excerpt := none, content := none,
    featured_image := none, author := none, category_id := none, tags := none,
    meta_description := none, read_time := none, is_published := none,
    is_featured := none }

/-- A request whose form carries none of the keys. -/
def blankTestimonialForm : TestimonialForm :=
  { name := none, location := none, role := none, avatar_url := none,
    testimonial := none, rating := none, yield_increase := none,
    water_saved := none, income_increase := none, video_url := none,
    is_featured := none, is_active := none, order_index := none }

/-- A request whose form carries none of the keys. -/
def blankTeamForm : TeamForm :=
  { name := none, position := none, bio := none, photo_url := none,
    email := none, linkedin := none, twitter := none, is_leadership := none,
    is_active := none, order_index := none }

/-- A request whose form carries none of the keys. -/
def blankStatForm : StatForm :=
  { stat_id := none, label := none, value := none, suffix := none,
    icon := none, order_index := none, is_active := none }

/-- A request whose form carries none of the keys. -/
def blankSettingsForm : SettingsForm :=
  { site_title := none, site_tagline := none, contact_email := none,
    contact_phone := none, contact_address := none, facebook_url := none,
    twitter_url := none, linkedin_url := none, instagram_url := none,
    github_url := none }

/-! ## General lemmas about the list operations of the embedding -/

/-- `Char.toLower` never yields an uppercase (basic latin) letter. -/
theorem toLower_not_upper (c : Char) : (Char.toLower c).isUpper = false := by
  unfold Char.toLower
  simp only []
  by_cases h : 65 ≤ c.toNat ∧ c.toNat ≤ 90
  · rw [if_pos h]
    obtain ⟨h1, h2⟩ := h
    interval_cases hn : c.toNat <;> decide
  · rw [if_neg h]
    by_cases hu : c.isUpper = true
    · exfalso
      apply h
      rw [Char.isUpper, Bool.and_eq_true] at hu
      obtain ⟨ha, hb⟩ := hu
      rw [decide_eq_true_iff] at ha hb
      exact ⟨ha, hb⟩
    · simpa using hu

/-- Stripping only removes characters. -/
theorem mem_pyStrip {c : Char} {l : List Char} (h : c ∈ pyStrip l) : c ∈ l := by
  unfold pyStrip at h
  rw [List.mem_reverse] at h
  have h2 := (List.dropWhile_sublist _).mem h
  rw [List.mem_reverse] at h2
  exact (List.dropWhile_sublist _).mem h2

/-- Every character the run-collapser emits is either the replacement
hyphen or a character of the input that is itself outside the run class. -/
theorem mem_collapseRuns {c : Char} :
    ∀ (b : Bool) (l : List Char), c ∈ collapseRuns b l →
      c = '-' ∨ (c ∈ l ∧ (c = '-' || pyIsSpace c) = false) := by
  intro b l
  induction l generalizing b with
  | nil =>
    intro h
    simp [collapseRuns] at h
  | cons a t ih =>
    intro h
    by_cases ha : (a = '-' || pyIsSpace a) = true
    · rw [collapseRuns, if_pos ha] at h
      cases b with
      | true =>
        rcases ih true h with h1 | ⟨h1, h2⟩
        · exact Or.inl h1
        · exact Or.inr ⟨List.mem_cons_of_mem _ h1, h2⟩
      | false =>
        rcases List.mem_cons.mp h with rfl | h
        · exact Or.inl rfl
        · rcases ih true h with h1 | ⟨h1, h2⟩
          · exact Or.inl h1
          · exact Or.inr ⟨List.mem_cons_of_mem _ h1, h2⟩
    · rw [collapseRuns, if_neg ha] at h
      rcases List.mem_cons.mp h with rfl | h
      · exact Or.inr ⟨List.mem_cons_self _ _, by simpa using ha⟩
      · rcases ih false h with h1 | ⟨h1, h2⟩
        · exact Or.inl h1
        · exact Or.inr ⟨List.mem_cons_of_mem _ h1, h2⟩

/-- Inside a run the collapser emits nothing until a non-run character, so
its output never starts with a character of the run class. -/
theorem collapseRuns_true_head {l : List Char} {a : Char}
    (h : (collapseRuns true l).head? = some a) :
    (a = '-' || pyIsSpace a) = false := by
  induction l with
  | nil => simp [collapseRuns] at h
  | cons c t ih =>
    by_cases hc : (c = '-' || pyIsSpace c) = true
    · rw [collapseRuns, if_pos hc] at h
      exact ih h
    · rw [collapseRuns, if_neg hc] at h
      simp at h
      subst h
      simpa using hc

/-- The collapser never emits two adjacent hyphens. -/
theorem chain_collapseRuns :
    ∀ (b : Bool) (l : List Char),
      List.Chain' (fun a c => ¬(a = '-' ∧ c = '-')) (collapseRuns b l) := by
  intro b l
  induction l generalizing b with
  | nil => simp [collapseRuns]
  | cons a t ih =>
    by_cases ha : (a = '-' || pyIsSpace a) = true
    · rw [collapseRuns, if_pos ha]
      cases b with
      | true =>
        rw [if_pos rfl]
        exact ih true
      | false =>
        rw [if_neg (by simp)]
        rw [List.chain'_cons']
        refine ⟨?_, ih true⟩
        intro y hy
        have hh := collapseRuns_true_head hy
        intro ⟨_, hy2⟩
        subst hy2
        simp at hh
    · rw [collapseRuns, if_neg ha]
      rw [List.chain'_cons']
      refine ⟨?_, ih false⟩
      intro y hy
      intro ⟨ha2, _⟩
      subst ha2
      simp at ha

/-- An UPDATE of the row `first()` returned: the list splits at the first
match, and `updateFirst` rewrites exactly that element. -/
theorem updateFirst_decomp {α : Type} {pred : α → Bool} {f : α → α} :
    ∀ {l : List α} {x : α}, l.find? pred = some x →
    ∃ l₁ l₂, l = l₁ ++ x :: l₂ ∧ (∀ y ∈ l₁, pred y = false) ∧
      updateFirst pred f l = l₁ ++ f x :: l₂ := by
  intro l
  induction l with
  | nil =>
    intro x h
    simp at h
  | cons a t ih =>
    intro x h
    by_cases ha : pred a = true
    · rw [List.find?_cons_of_pos _ ha] at h
      cases h
      refine ⟨[], t, by simp, by simp, ?_⟩
      simp [updateFirst, ha]
    · rw [List.find?_cons_of_neg _ ha] at h
      obtain ⟨l₁, l₂, he, hall, hu⟩ := ih h
      refine ⟨a :: l₁, l₂, by simp [he], ?_, ?_⟩
      · intro y hy
        rcases List.mem_cons.mp hy with rfl | hy
        · simpa using ha
        · exact hall y hy
      · simp [updateFirst, ha, hu]

/-- `find?` skips a prefix on which the predicate fails everywhere. -/
theorem find?_append_first_none {α : Type} {pred : α → Bool} {l₁ : List α}
    (h : ∀ y ∈ l₁, pred y = false) (l₂ : List α) :
    (l₁ ++ l₂).find? pred = l₂.find? pred := by
  induction l₁ with
  | nil => rfl
  | cons a t ih =>
    have ha : pred a = false := h a (by simp)
    simp only [List.cons_append]
    rw [List.find?_cons_of_neg _ (by simp [ha])]
    exact ih (fun y hy => h y (List.mem_cons_of_mem _ hy))

/-! ## Per-handler atomicity lemmas -/

/-- `admin_edit_home` always commits: every branch redirects or is the GET
render. -/
theorem atomic_home (st : DBState) (m : Method) (hf : HomeForm) (now : Nat) :
    atomicOutcome st (admin_edit_home m st hf now) := by
  cases m
  case get => exact Or.inr ⟨rfl, rfl⟩
  case post =>
    unfold atomicOutcome admin_edit_home
    cases hfind : st.pageSections.find?
        (fun s => s.page == "home" && s.sectionName == "hero") <;>
      simp [hfind, isRedirect]

/-- `admin_edit_about`: a missing `section` field makes the commit violate
NOT NULL, roll back and re-render; otherwise the handler commits. -/
theorem atomic_about (st : DBState) (m : Method) (af : AboutForm) (now : Nat) :
    atomicOutcome st (admin_edit_about m st af now) := by
  cases m
  case get => exact Or.inr ⟨rfl, rfl⟩
  case post =>
    unfold atomicOutcome admin_edit_about
    cases hs : af.sectionField with
    | none => simp [hs, isRender]
    | some sect =>
      cases hfind : st.pageSections.find?
          (fun s => s.page == "about" && s.sectionName == sect) <;>
        simp [hs, hfind, isRedirect]

/-- `admin_edit_blog`: body exception (no slug source), NOT NULL violation
(title/content) and unique-slug violation all roll back; success commits. -/
theorem atomic_blog (st : DBState) (m : Method) (idOpt : Option Nat)
    (bf : BlogForm) (now : Nat) :
    atomicOutcome st (admin_edit_blog m st idOpt bf now) := by
  cases m
  case get => exact Or.inr ⟨rfl, rfl⟩
  case post =>
    unfold atomicOutcome admin_edit_blog
    cases hslug : pyOrStr bf.slug bf.title with
    | none => simp [hslug, isRender]
    | some s =>
      cases hbt : bf.title with
      | none => simp [hslug, hbt, isRender]
      | some title =>
        cases hbc : bf.content with
        | none => simp [hslug, hbt, hbc, isRender]
        | some content =>
          cases hex : idOpt.bind
              (fun i => List.find? (fun p => p.id == i) st.blogPosts) with
          | some p =>
            by_cases hsf : slugFree st.blogPosts (some p.id) (create_slug s) = true
            · simp [hslug, hbt, hbc, hex, hsf, isRedirect]
            · simp [hslug, hbt, hbc, hex, hsf, isRender]
          | none =>
            by_cases hsf : slugFree st.blogPosts none (create_slug s) = true
            · simp [hslug, hbt, hbc, hex, hsf, isRedirect]
            · simp [hslug, hbt, hbc, hex, hsf, isRender]

/-- `admin_edit_testimonial`: NOT NULL on name/testimonial rolls back;
otherwise the handler commits. -/
theorem atomic_testimonial (st : DBState) (m : Method) (idOpt : Option Nat)
    (tf : TestimonialForm) (now : Nat) :
    atomicOutcome st (admin_edit_testimonial m st idOpt tf now) := by
  cases m
  case get => exact Or.inr ⟨rfl, rfl⟩
  case post =>
    unfold atomicOutcome admin_edit_testimonial
    cases hn : tf.name with
    | none => simp [hn, isRender]
    | some name =>
      cases ht : tf.testimonial with
      | none => simp [hn, ht, isRender]
      | some text =>
        cases hex : idOpt.bind
            (fun i => List.find? (fun t => t.id == i) st.testimonials) <;>
          simp [hn, ht, hex, isRedirect]

/-- `admin_edit_team`: NOT NULL on name/position rolls back; otherwise the
handler commits. -/
theorem atomic_team (st : DBState) (m : Method) (idOpt : Option Nat)
    (mf : TeamForm) (now : Nat) :
    atomicOutcome st (admin_edit_team m st idOpt mf now) := by
  cases m
  case get => exact Or.inr ⟨rfl, rfl⟩
  case post =>
    unfold atomicOutcome admin_edit_team
    cases hn : mf.name with
    | none => simp [hn, isRender]
    | some name =>
      cases hp : mf.position with
      | none => simp [hn, hp, isRender]
      | some position =>
        cases hex : idOpt.bind
            (fun i => List.find? (fun t => t.id == i) st.teamMembers) <;>
          simp [hn, hp, hex, isRedirect]

/-- `admin_manage_stats`: an unknown `stat_id` raises on the attribute
assignment, NOT NULL on label/value rolls back; otherwise commits. -/
theorem atomic_stats (st : DBState) (m : Method) (sf : StatForm) :
    atomicOutcome st (admin_manage_stats m st sf) := by
  cases m
  case get => exact Or.inr ⟨rfl, rfl⟩
  case post =>
    unfold atomicOutcome admin_manage_stats
    cases hid : sf.stat_id with
    | some sid =>
      cases hfind : st.statistics.find? (fun s => s.id == sid) with
      | none => simp [hid, hfind, isRender]
      | some s =>
        cases hl : sf.label with
        | none => simp [hid, hfind, hl, isRender]
        | some label =>
          cases hv : sf.value with
          | none => simp [hid, hfind, hl, hv, isRender]
          | some value => simp [hid, hfind, hl, hv, isRedirect]
    | none =>
      cases hl : sf.label with
      | none => simp [hid, hl, isRender]
      | some label =>
        cases hv : sf.value with
        | none => simp [hid, hl, hv, isRender]
        | some value => simp [hid, hl, hv, isRedirect]

/-- `admin_settings` POST always redirects (no write can fail). -/
theorem atomic_settings (st : DBState) (m : Method) (gf : SettingsForm)
    (now : Nat) :
    atomicOutcome st (admin_settings m st gf now) := by
  cases m
  case get => exact Or.inr ⟨rfl, rfl⟩
  case post => exact Or.inl rfl

/-! ## Claim theorems -/

/-- Claim C1 (confirmed): for every handler wrapped by `login_required`, a
request whose session lacks the `user_id` key is answered by a redirect to
the admin login endpoint with the database untouched, and the wrapped
handler body never runs (the outcome is the same whatever the handler is). -/
theorem C1_login_required_blocks (f : Session → DBState → Body × DBState)
    (s : Session) (st : DBState) (h : s.userId = none) :
    login_required f s st = (Body.redirect "admin_login", st) ∧
    (∀ g : Session → DBState → Body × DBState,
      login_required f s st = login_required g s st) := by
  constructor
  · simp [login_required, h]
  · intro g
    simp [login_required, h]

/-- Witness for C1: the decorator blocks a concrete unauthenticated request
to a concrete handler. -/
theorem C1_witness :
    login_required dashHandler ⟨none, none⟩ emptyDB =
      (Body.redirect "admin_login", emptyDB) :=
  (C1_login_required_blocks dashHandler ⟨none, none⟩ emptyDB rfl).1

/-- Claim C2 (confirmed): `init_default_data` is idempotent — whatever the
starting state and whatever the clock reads on each run, a second run
leaves exactly the state of the first run, so no duplicate admin user,
settings rows, categories or statistics can appear. -/
theorem C2_init_default_data_idempotent (st : DBState) (now now2 : Nat) :
    init_default_data (init_default_data st now) now2 =
      init_default_data st now := by
  unfold init_default_data
  by_cases hu : st.users.isEmpty <;>
  by_cases hs : st.settings.isEmpty <;>
  by_cases hc : st.blogCategories.isEmpty <;>
  by_cases hx : st.statistics.isEmpty <;>
  simp [hu, hs, hc, hx, defaultSettingsRows, defaultCategories, defaultStatistics]

/-- Claim C3 (code bug): deleting a non-existent id leaves the database
unchanged, but none of the four delete handlers produces a 404 — the
NotFound that `get_or_404` raises is swallowed by the blanket
`except Exception`, and the handler redirects to its management page. -/
theorem C3_delete_missing_redirects :
    admin_delete_blog emptyDB 1 = (Body.redirect "admin_manage_blog", emptyDB) ∧
    admin_delete_testimonial emptyDB 1 =
      (Body.redirect "admin_manage_testimonials", emptyDB) ∧
    admin_delete_team emptyDB 1 = (Body.redirect "admin_manage_team", emptyDB) ∧
    admin_delete_stat emptyDB 1 = (Body.redirect "admin_manage_stats", emptyDB) ∧
    (admin_delete_blog emptyDB 1).1 ≠ Body.notFound := by
  refine ⟨rfl, rfl, rfl, rfl, by decide⟩

/-- Claim C4 (confirmed): the blog search endpoint answers an empty or
absent `q` with the empty JSON array, and always returns a JSON array of at
most 10 results (each result being a `SearchResult`, i.e. exactly the
fields id, title, slug, excerpt, url). -/
theorem C4_api_blog_search_bounds (st : DBState) (q : Option String) :
    (q.getD "" = "" → api_blog_search st q = Body.json []) ∧
    (∃ rs, api_blog_search st q = Body.json rs ∧ rs.length ≤ 10) := by
  constructor
  · intro h
    simp [api_blog_search, h]
  · unfold api_blog_search
    by_cases h : (q.getD "" == "") = true
    · rw [if_pos h]
      exact ⟨[], rfl, by simp⟩
    · rw [if_neg h]
      refine ⟨_, rfl, ?_⟩
      rw [List.length_map]
      exact List.length_take_le _ _

/-- Witness for C4: a concrete request with `q` absent gets the empty
array. -/
theorem C4_witness : api_blog_search emptyDB none = Body.json [] :=
  (C4_api_blog_search_bounds emptyDB none).1 rfl

/-- Counterexample to C5 as stated: the blog detail route is listed among
the read-only public routes, but a successful request to it changes the
database (the view counter commit). -/
theorem C5_counterexample :
    (blog_detail sampleDB "drip-irrigation-basics" 7).2 ≠ sampleDB := by
  decide

/-- Claim C5 (corrected): home, about, blog list, testimonials and contact
leave the database unchanged; blog detail leaves every table unchanged
except blog posts, where a miss changes nothing and a hit rewrites exactly
the first matching published post (view counter and refreshed
`updated_at`). -/
theorem C5_public_routes_readonly (st : DBState) (pageArg : Nat)
    (cat : Option String) (slug : String) (now : Nat) :
    (index st).2 = st ∧ (about st).2 = st ∧ (blog st pageArg cat).2 = st ∧
    (testimonials st).2 = st ∧ (contact st).2 = st ∧
    (st.blogPosts.find? (fun p => p.slug == slug && p.isPublished) = none →
      (blog_detail st slug now).2 = st) ∧
    (∀ p, st.blogPosts.find? (fun q => q.slug == slug && q.isPublished) = some p →
      (blog_detail st slug now).2.users = st.users ∧
      (blog_detail st slug now).2.pageSections = st.pageSections ∧
      (blog_detail st slug now).2.blogCategories = st.blogCategories ∧
      (blog_detail st slug now).2.testimonials = st.testimonials ∧
      (blog_detail st slug now).2.teamMembers = st.teamMembers ∧
      (blog_detail st slug now).2.statistics = st.statistics ∧
      (blog_detail st slug now).2.settings = st.settings ∧
      (blog_detail st slug now).2.features = st.features ∧
      ∃ pre post, st.blogPosts = pre ++ p :: post ∧
        (blog_detail st slug now).2.blogPosts =
          pre ++ { p with views := p.views + 1, updatedAt := now } :: post) := by
  refine ⟨rfl, rfl, rfl, rfl, rfl, ?_, ?_⟩
  · intro h
    simp [blog_detail, h]
  · intro p h
    obtain ⟨l₁, l₂, he, hall, hu⟩ :=
      updateFirst_decomp
        (f := fun q => { q with views := q.views + 1, updatedAt := now }) h
    refine ⟨?_, ?_, ?_, ?_, ?_, ?_, ?_, ?_, l₁, l₂, he, ?_⟩ <;>
      simp [blog_detail, h, hu]

/-- Witness for C5: a blog-detail miss on a concrete database leaves it
unchanged. -/
theorem C5_witness : (blog_detail emptyDB "absent" 3).2 = emptyDB :=
  (C5_public_routes_readonly emptyDB 1 none "absent" 3).2.2.2.2.2.1 rfl

/-- Claim C6 (confirmed): every admin mutation handler either commits and
redirects, or fails (body exception or constraint violation at commit),
in which case the rollback leaves the database exactly as it was and the
handler re-renders; the delete handlers always redirect and leave the state
unchanged when the id does not exist. -/
theorem C6_admin_mutations_atomic (st : DBState) (m : Method) (now : Nat)
    (hf : HomeForm) (af : AboutForm) (bf : BlogForm) (tf : TestimonialForm)
    (mf : TeamForm) (sf : StatForm) (gf : SettingsForm)
    (idOpt : Option Nat) (idA idB idC idD : Nat) :
    atomicOutcome st (admin_edit_home m st hf now) ∧
    atomicOutcome st (admin_edit_about m st af now) ∧
    atomicOutcome st (admin_edit_blog m st idOpt bf now) ∧
    atomicOutcome st (admin_edit_testimonial m st idOpt tf now) ∧
    atomicOutcome st (admin_edit_team m st idOpt mf now) ∧
    atomicOutcome st (admin_manage_stats m st sf) ∧
    atomicOutcome st (admin_settings m st gf now) ∧
    isRedirect (admin_delete_blog st idA).1 = true ∧
    (st.blogPosts.find? (fun p => p.id == idA) = none →
      (admin_delete_blog st idA).2 = st) ∧
    isRedirect (admin_delete_testimonial st idB).1 = true ∧
    (st.testimonials.find? (fun t => t.id == idB) = none →
      (admin_delete_testimonial st idB).2 = st) ∧
    isRedirect (admin_delete_team st idC).1 = true ∧
    (st.teamMembers.find? (fun t => t.id == idC) = none →
      (admin_delete_team st idC).2 = st) ∧
    isRedirect (admin_delete_stat st idD).1 = true ∧
    (st.statistics.find? (fun s => s.id == idD) = none →
      (admin_delete_stat st idD).2 = st) := by
  refine ⟨atomic_home st m hf now, atomic_about st m af now,
    atomic_blog st m idOpt bf now, atomic_testimonial st m idOpt tf now,
    atomic_team st m idOpt mf now, atomic_stats st m sf,
    atomic_settings st m gf now, ?_, ?_, ?_, ?_, ?_, ?_, ?_, ?_⟩
  · unfold admin_delete_blog
    cases h : st.blogPosts.find? (fun p => p.id == idA) <;>
      simp [h, isRedirect]
  · intro h
    simp [admin_delete_blog, h]
  · unfold admin_delete_testimonial
    cases h : st.testimonials.find? (fun t => t.id == idB) <;>
      simp [h, isRedirect]
  · intro h
    simp [admin_delete_testimonial, h]
  · unfold admin_delete_team
    cases h : st.teamMembers.find? (fun t => t.id == idC) <;>
      simp [h, isRedirect]
  · intro h
    simp [admin_delete_team, h]
  · unfold admin_delete_stat
    cases h : st.statistics.find? (fun s => s.id == idD) <;>
      simp [h, isRedirect]
  · intro h
    simp [admin_delete_stat, h]

/-- Witness for C6: a delete of a missing id on a concrete database leaves
it unchanged. -/
theorem C6_witness : (admin_delete_blog emptyDB 9).2 = emptyDB := by
  have h := C6_admin_mutations_atomic emptyDB Method.post 0 blankHomeForm
    blankAboutForm blankBlogForm blankTestimonialForm blankTeamForm
    blankStatForm blankSettingsForm none 9 9 9 9
  exact h.2.2.2.2.2.2.2.2.1 rfl

/-- Claim C7 (confirmed): for every input, `create_slug` yields a string
with no uppercase letter, consisting only of word characters and hyphens
(in particular no whitespace), in which runs of whitespace and hyphens have
been collapsed so that no two hyphens are adjacent. -/
theorem C7_create_slug_url_safe (text : String) :
    (∀ c ∈ (create_slug text).data, c.isUpper = false) ∧
    (∀ c ∈ (create_slug text).data, pyIsWord c = true ∨ c = '-') ∧
    (∀ c ∈ (create_slug text).data, pyIsSpace c = false) ∧
    List.Chain' (fun a b => ¬(a = '-' ∧ b = '-')) (create_slug text).data := by
  have hdata : (create_slug text).data = collapseRuns false
      ((pyStrip (text.data.map Char.toLower)).filter
        (fun c => pyIsWord c || pyIsSpace c || c = '-')) := rfl
  have hsrc : ∀ c ∈ (create_slug text).data,
      c = '-' ∨ (c ∈ (pyStrip (text.data.map Char.toLower)).filter
        (fun c => pyIsWord c || pyIsSpace c || c = '-') ∧
        (c = '-' || pyIsSpace c) = false) := by
    intro c hc
    rw [hdata] at hc
    exact mem_collapseRuns false _ hc
  refine ⟨?_, ?_, ?_, ?_⟩
  · intro c hc
    rcases hsrc c hc with rfl | ⟨hf, _⟩
    · decide
    · have hm := List.mem_of_mem_filter hf
      have hm2 := mem_pyStrip hm
      rw [List.mem_map] at hm2
      obtain ⟨c₀, _, rfl⟩ := hm2
      exact toLower_not_upper c₀
  · intro c hc
    rcases hsrc c hc with rfl | ⟨hf, hnd⟩
    · exact Or.inr rfl
    · have hp := List.of_mem_filter hf
      simp only [Bool.or_eq_true] at hp
      simp only [Bool.or_eq_false_iff] at hnd
      rcases hp with (hw | hs) | hd
      · exact Or.inl hw
      · rw [hnd.2] at hs
        cases hs
      · rw [decide_eq_true_iff] at hd
        exact Or.inr hd
  · intro c hc
    rcases hsrc c hc with rfl | ⟨_, hnd⟩
    · decide
    · simp only [Bool.or_eq_false_iff] at hnd
      exact hnd.2
  · rw [hdata]
    exact chain_collapseRuns false _

/-- Witness for C7: applied to a concrete title, the slug's first character
is a word character. -/
theorem C7_witness : pyIsWord 'h' = true ∨ 'h' = '-' := by
  have h := (C7_create_slug_url_safe "Hello World").2.1
  exact h 'h' (by decide)

/-- Claim C8 (confirmed): the settings helpers round-trip — after
`update_setting k v` a `get_setting k` returns `v` whether or not a row for
`k` existed, and `get_setting` on a key with no stored row returns its
default argument. -/
theorem C8_settings_roundtrip (st : DBState) (k : String) (v : Option String)
    (desc : String) (now : Nat) (d : Option String) :
    get_setting (update_setting st k v desc now) k d = v ∧
    ((∀ r ∈ st.settings, r.key ≠ k) → get_setting st k d = d) := by
  constructor
  · cases hf : st.settings.find? (fun r => r.key == k) with
    | some r =>
      obtain ⟨l₁, l₂, he, hall, hu⟩ :=
        updateFirst_decomp
          (f := fun q => { q with value := v, updatedAt := now }) hf
      have hkey : (r.key == k) = true := by
        have h2 := List.find?_some hf
        simpa using h2
      simp only [update_setting, get_setting, hf, hu]
      rw [find?_append_first_none hall]
      have hcons : List.find? (fun q : SettingsRow => q.key == k)
          (({ r with value := v, updatedAt := now } : SettingsRow) :: l₂) =
          some ({ r with value := v, updatedAt := now } : SettingsRow) :=
        List.find?_cons_of_pos _ hkey
      rw [hcons]
    | none =>
      have hall : ∀ y ∈ st.settings, (fun r => r.key == k) y = false := by
        intro y hy
        have h2 := List.find?_eq_none.mp hf y hy
        simpa using h2
      simp only [update_setting, get_setting, hf]
      rw [find?_append_first_none hall]
      have hcons : List.find? (fun q : SettingsRow => q.key == k)
          ((⟨nextId (st.settings.map (fun r => r.id)), k, v, desc, now⟩ :
            SettingsRow) :: []) =
          some (⟨nextId (st.settings.map (fun r => r.id)), k, v, desc, now⟩ :
            SettingsRow) :=
        List.find?_cons_of_pos _ (by simp)
      rw [hcons]
  · intro hk
    unfold get_setting
    cases hfind : st.settings.find? (fun r => r.key == k) with
    | none => rfl
    | some r =>
      exfalso
      have hmem := List.mem_of_find?_eq_some hfind
      have hkey : (r.key == k) = true := by
        have h2 := List.find?_some hfind
        simpa using h2
      rw [beq_iff_eq] at hkey
      exact hk r hmem hkey

/-- Witness for C8: a concrete write can be read back, and a missing key
yields the default. -/
theorem C8_witness :
    get_setting (update_setting emptyDB "site_title" (some "Shramic") "" 3)
      "site_title" none = some "Shramic" ∧
    get_setting emptyDB "site_title" none = none := by
  have h := C8_settings_roundtrip emptyDB "site_title" (some "Shramic") "" 3 none
  refine ⟨h.1, h.2 ?_⟩
  intro r hr
  cases hr

/-- Counterexample to C9 as stated: the view-count commit also refreshes the
post's `updated_at` column (it is declared `onupdate=datetime.utcnow`), so
the handler does not change the `views` field alone. -/
theorem C9_counterexample :
    (blog_detail sampleDB "drip-irrigation-basics" 7).2 ≠
      { sampleDB with
        blogPosts := [{ samplePost with views := samplePost.views + 1 }] } := by
  decide

/-- Claim C9 (corrected): a successful blog-detail request rewrites exactly
the first published post carrying the slug — its `views` incremented by one
and its `updated_at` refreshed to the commit time — and no other row or
table changes. -/
theorem C9_blog_detail_bumps_views (st : DBState) (slug : String) (now : Nat)
    (p : BlogPost)
    (h : st.blogPosts.find? (fun q => q.slug == slug && q.isPublished) = some p) :
    ∃ pre post,
      st.blogPosts = pre ++ p :: post ∧
      (blog_detail st slug now).1 = Body.render "public/blog_detail.html" ∧
      (blog_detail st slug now).2 =
        { st with blogPosts :=
            pre ++ { p with views := p.views + 1, updatedAt := now } :: post } := by
  obtain ⟨l₁, l₂, he, hall, hu⟩ :=
    updateFirst_decomp
      (f := fun q => { q with views := q.views + 1, updatedAt := now }) h
  refine ⟨l₁, l₂, he, ?_, ?_⟩ <;> simp [blog_detail, h, hu]

/-- Witness for C9: the amended theorem applies to a concrete database and
slug. -/
theorem C9_witness :
    (blog_detail sampleDB "drip-irrigation-basics" 7).1 =
      Body.render "public/blog_detail.html" := by
  obtain ⟨pre, post, _, hbody, _⟩ :=
    C9_blog_detail_bumps_views sampleDB "drip-irrigation-basics" 7 samplePost
      (by decide)
  exact hbody

/-- Claim C10 (confirmed): every element of the search endpoint's JSON array
corresponds to a stored post that is published. -/
theorem C10_search_results_published (st : DBState) (q : Option String)
    (rs : List SearchResult) (h : api_blog_search st q = Body.json rs) :
    ∀ r ∈ rs, ∃ p, p ∈ st.blogPosts ∧ p.id = r.id ∧ p.isPublished = true := by
  unfold api_blog_search at h
  by_cases hq : (q.getD "" == "") = true
  · rw [if_pos hq] at h
    injection h with h
    subst h
    intro r hr
    cases hr
  · rw [if_neg hq] at h
    injection h with h
    subst h
    intro r hr
    rw [List.mem_map] at hr
    obtain ⟨p, hp, rfl⟩ := hr
    have hp2 := List.mem_of_mem_take hp
    rw [List.mem_filter] at hp2
    obtain ⟨hmem, hpred⟩ := hp2
    rw [Bool.and_eq_true] at hpred
    exact ⟨p, hmem, rfl, hpred.1⟩

/-- Witness for C10: a concrete query on a concrete database returns a
result backed by a published post. -/
theorem C10_witness :
    ∃ p, p ∈ sampleDB.blogPosts ∧ p.id = 1 ∧ p.isPublished = true := by
  have h := C10_search_results_published sampleDB (some "water")
    [⟨1, "Drip irrigation basics", "drip-irrigation-basics", some "Save water",
      "/blog/drip-irrigation-basics"⟩] (by decide)
  exact h ⟨1, "Drip irrigation basics", "drip-irrigation-basics",
    some "Save water", "/blog/drip-irrigation-basics"⟩ (by decide)
